import Mathlib

/-!
Verification development for the Pragya Company Law retrieval pipeline
(Companies Act 2013 governance RAG).  The definitions below are a shallow
embedding of the chunk data model (the `chunks_identity` / `chunks_content`
/ governance tables of the PostgreSQL schema in AGENTS.md), the
query-intent classifier, the direct-lookup SQL, the FAISS
distance-to-similarity conversion, the context builder of
`generate_answer`, the response formatter of `query()`, and the refusal
policy engine, as documented in the repository
(QUERY_TO_ANSWER_FLOW.md, SECTION_QUERY_OPTIMIZATION.md,
PERFORMANCE_OPTIMIZATION.md, AGENTS.md, optimize_indexes.sql).
-/

namespace Pragya

/-- `chunk_role_enum` of the schema. -/
inductive ChunkRole where
  | parent
  | child
deriving DecidableEq, Repr

/-- `lifecycle_status_enum` of the schema. -/
inductive LifecycleStatus where
  | DRAFT
  | ACTIVE
  | RETIRED
deriving DecidableEq, Repr

/-- `document_type_enum` of the schema (`return` is spelled `«return»`
because it is a Lean keyword). -/
inductive DocumentType where
  | act
  | rule
  | regulation
  | order
  | notification
  | circular
  | sop
  | form
  | guideline
  | practice_note
  | commentary
  | textbook
  | qa_book
  | schedule
  | register
  | «return»
  | qa
  | other
deriving DecidableEq, Repr

/-- `authority_level_enum` of the schema. -/
inductive AuthorityLevel where
  | statutory
  | interpretive
  | procedural
  | commentary
deriving DecidableEq, Repr

/-- `relationship_type_enum` of the schema (the SQL literal
`implemented_by` is spelled `implementedBy` here). -/
inductive RelationshipType where
  | part_of
  | precedes
  | clarifies
  | proceduralises
  | proceduralised_by
  | implements
  | implementedBy
  | amends
  | amended_by
  | supersedes
  | superseded_by
deriving DecidableEq, Repr

/-- One row of the `chunks_identity` table (immutable identity fields; the
`section` column is spelled `«section»` because it is a Lean keyword). -/
structure IdentityRow where
  chunk_id : String
  chunk_role : ChunkRole
  parent_chunk_id : Option String
  document_type : DocumentType
  authority_level : AuthorityLevel
  binding : Bool
  «section» : Option String
  sub_section : Option String
deriving DecidableEq, Repr

/-- The `parent_child_consistency` CHECK constraint of `chunks_identity`:
`(chunk_role = 'parent' AND parent_chunk_id IS NULL) OR
 (chunk_role = 'child' AND parent_chunk_id IS NOT NULL)`. -/
def parentChildConsistency (r : IdentityRow) : Bool :=
  (r.chunk_role == ChunkRole.parent && r.parent_chunk_id.isNone) ||
  (r.chunk_role == ChunkRole.child && r.parent_chunk_id.isSome)

/-- An INSERT into `chunks_identity`: PostgreSQL admits the row only when the
CHECK constraint holds, otherwise the write is rejected. -/
def insertIdentity (tbl : List IdentityRow) (r : IdentityRow) :
    Option (List IdentityRow) :=
  if parentChildConsistency r then some (tbl ++ [r]) else none

/-- C9: for every chunk row, `chunk_role = parent` iff `parent_chunk_id` is
null and `chunk_role = child` iff it is non-null; the CHECK-guarded insert
preserves the invariant on the whole table. -/
theorem chunks_identity_invariant :
    (∀ r : IdentityRow,
      parentChildConsistency r = true ↔
        ((r.chunk_role = ChunkRole.parent ↔ r.parent_chunk_id = none) ∧
         (r.chunk_role = ChunkRole.child ↔ r.parent_chunk_id ≠ none))) ∧
    (∀ (tbl : List IdentityRow) (r : IdentityRow) (tbl' : List IdentityRow),
      (∀ x ∈ tbl, parentChildConsistency x = true) →
      insertIdentity tbl r = some tbl' →
      ∀ x ∈ tbl', parentChildConsistency x = true) := by
  constructor
  · intro r
    cases hrole : r.chunk_role <;>
      cases hpid : r.parent_chunk_id <;>
        simp [parentChildConsistency, hrole, hpid]
  · intro tbl r tbl' hall hins x hx
    unfold insertIdentity at hins
    by_cases hc : parentChildConsistency r = true
    · rw [if_pos hc] at hins
      cases hins
      rcases List.mem_append.mp hx with hmem | hmem
      · exact hall x hmem
      · rcases List.mem_singleton.mp hmem with rfl
        exact hc
    · rw [if_neg hc] at hins
      exact absurd hins (by simp)

/-- A concrete parent row of `chunks_identity` used in witnesses. -/
def sampleParentRow : IdentityRow :=
  { chunk_id := ("p1"), chunk_role := ChunkRole.parent,
    parent_chunk_id := none, document_type := DocumentType.act,
    authority_level := AuthorityLevel.statutory, binding := true,
    «section» := some ("017"), sub_section := none }

/-- Witness for `chunks_identity_invariant` at a concrete parent row and a
one-row table. -/
theorem chunks_identity_invariant_witness :
    ∀ x ∈ [sampleParentRow], parentChildConsistency x = true := by
  have h := chunks_identity_invariant
  exact h.2 [] sampleParentRow [sampleParentRow]
    (by intro x hx; cases hx) (by decide)

/-- The SQL literal of a `document_type_enum` value (Python code receives the
column as this string). -/
def docTypeStr : DocumentType → String
  | DocumentType.act => ("act")
  | DocumentType.rule => ("rule")
  | DocumentType.regulation => ("regulation")
  | DocumentType.order => ("order")
  | DocumentType.notification => ("notification")
  | DocumentType.circular => ("circular")
  | DocumentType.sop => ("sop")
  | DocumentType.form => ("form")
  | DocumentType.guideline => ("guideline")
  | DocumentType.practice_note => ("practice_note")
  | DocumentType.commentary => ("commentary")
  | DocumentType.textbook => ("textbook")
  | DocumentType.qa_book => ("qa_book")
  | DocumentType.schedule => ("schedule")
  | DocumentType.register => ("register")
  | DocumentType.«return» => ("return")
  | DocumentType.qa => ("qa")
  | DocumentType.other => ("other")

/-- One joined chunk record as fetched by `get_chunk_details` (identity +
content + retrieval-rule columns used by `generate_answer` and the response
formatter). -/
structure ChunkDetail where
  chunk_id : String
  «section» : String
  document_type : DocumentType
  text : String
  title : String
  compliance_area : String
  priority : Nat
  authority_level : AuthorityLevel
  citation : String
deriving DecidableEq, Repr

/-- One element of `retrieved_chunks` in the `/api/query` response payload. -/
structure RetrievedChunkView where
  chunk_id : String
  «section» : String
  document_type : DocumentType
  text : String
  title : String
  compliance_area : String
  priority : Nat
  authority_level : AuthorityLevel
  citation : String
  similarity_score : ℚ
deriving DecidableEq, Repr

/-- `score_map.get(chunk_id)` — association-list lookup of a vector-search
similarity score. -/
def lookupScore : List (String × ℚ) → String → Option ℚ
  | [], _ => none
  | (k, v) :: rest, cid => if k == cid then some v else lookupScore rest cid

/-- One entry of the `retrieved_chunks` list built by `query()`
(QUERY_TO_ANSWER_FLOW.md, Step 12): the text is `chunk['text'][:500] + '...'`
(modelled as a take on the code-point list) and the score is
`score_map.get(chunk['chunk_id'], 1.0)`. -/
def formatRetrievedChunk (scoreMap : List (String × ℚ)) (c : ChunkDetail) :
    RetrievedChunkView :=
  { chunk_id := c.chunk_id
    «section» := c.«section»
    document_type := c.document_type
    text := String.mk (c.text.toList.take 500) ++ ("...")
    title := c.title
    compliance_area := c.compliance_area
    priority := c.priority
    authority_level := c.authority_level
    citation := c.citation
    similarity_score := (lookupScore scoreMap c.chunk_id).getD 1 }

/-- C10: each retrieved chunk in the response payload carries the first 500
characters of its text with `...` appended (so in particular the reported
text never exceeds 503 characters, and short texts are passed through
whole), and a chunk absent from the vector-score map — every direct-lookup
chunk — is reported with `similarity_score = 1.0`, while a mapped chunk
keeps its vector score. -/
theorem response_text_truncation_and_default_score
    (scoreMap : List (String × ℚ)) (c : ChunkDetail) :
    (formatRetrievedChunk scoreMap c).text
        = String.mk (c.text.toList.take 500) ++ ("...") ∧
    (formatRetrievedChunk scoreMap c).text.length ≤ 503 ∧
    (c.text.length ≤ 500 →
      (formatRetrievedChunk scoreMap c).text = c.text ++ ("...")) ∧
    (lookupScore scoreMap c.chunk_id = none →
      (formatRetrievedChunk scoreMap c).similarity_score = 1) ∧
    (∀ s : ℚ, lookupScore scoreMap c.chunk_id = some s →
      (formatRetrievedChunk scoreMap c).similarity_score = s) := by
  refine ⟨rfl, ?_, ?_, ?_, ?_⟩
  · show (String.mk (c.text.toList.take 500) ++ ("...")).length ≤ 503
    have h1 : (String.mk (c.text.toList.take 500)).length ≤ 500 := by
      show (c.text.toList.take 500).length ≤ 500
      exact List.length_take_le 500 c.text.toList
    have hdots : ("..." : String).length = 3 := by decide
    calc (String.mk (c.text.toList.take 500) ++ ("...")).length
        = (String.mk (c.text.toList.take 500)).length + 3 := by
          rw [String.length_append, hdots]
      _ ≤ 503 := by omega
  · intro hle
    show String.mk (c.text.toList.take 500) ++ ("...") = c.text ++ ("...")
    have h2 : c.text.toList.take 500 = c.text.toList :=
      List.take_of_length_le hle
    rw [show c.text.toList = c.text.data from rfl] at h2
    show String.mk (c.text.data.take 500) ++ ("...") = c.text ++ ("...")
    rw [h2]
  · intro hnone
    show (lookupScore scoreMap c.chunk_id).getD 1 = 1
    simp [hnone]
  · intro s hs
    show (lookupScore scoreMap c.chunk_id).getD 1 = s
    simp [hs]

/-- A concrete direct-lookup chunk record used in witnesses. -/
def sampleDetail : ChunkDetail :=
  { chunk_id := ("001_act_001")
    «section» := ("001")
    document_type := DocumentType.act
    text := ("short text")
    title := ("Short title")
    compliance_area := ("incorporation")
    priority := 1
    authority_level := AuthorityLevel.statutory
    citation := ("Section 1, Companies Act 2013") }

/-- Witness for `response_text_truncation_and_default_score` at a concrete
short-text chunk with an empty score map. -/
theorem response_text_truncation_witness :
    (formatRetrievedChunk [] sampleDetail).text = ("short text...") ∧
    (formatRetrievedChunk [] sampleDetail).similarity_score = 1 := by
  have h := response_text_truncation_and_default_score [] sampleDetail
  refine ⟨?_, h.2.2.2.1 (by decide)⟩
  have h3 := h.2.2.1 (by decide)
  simpa using h3

/-! ## String helpers (Python `str.lower`, substring containment) -/

/-- `s.lower()` as a code-point list. -/
def lowerStr (s : String) : List Char := s.toList.map Char.toLower

/-- Does `cs` start with `pre`? (helper for substring containment). -/
def startsWithChars : List Char → List Char → Bool
  | _, [] => true
  | [], _ :: _ => false
  | a :: as, b :: bs => a == b && startsWithChars as bs

/-- Python `needle in hay` / SQL `LIKE '%needle%'`: substring containment. -/
def containsSub (hay needle : List Char) : Bool :=
  match hay with
  | [] => needle.isEmpty
  | _ :: rest => startsWithChars hay needle || containsSub rest needle

/-! ## Direct section lookup (QUERY_TO_ANSWER_FLOW.md, Step 6b)

```sql
SELECT ci.chunk_id FROM chunks_identity ci
WHERE ci.section = %s
ORDER BY CASE WHEN ci.chunk_role = 'parent' THEN 0 ELSE 1 END, ci.chunk_id
LIMIT %s
```
-/

/-- `CASE WHEN ci.chunk_role = 'parent' THEN 0 ELSE 1 END`. -/
def roleRank (r : IdentityRow) : Nat :=
  if r.chunk_role == ChunkRole.parent then 0 else 1

/-- The two-column ORDER BY key of the section-lookup query. -/
def sectionSortKey (r : IdentityRow) : Nat × String :=
  (roleRank r, r.chunk_id)

/-- Lexicographic comparison on a `(Nat, String)` sort key. -/
def pairLe (p q : Nat × String) : Prop :=
  p.1 < q.1 ∨ (p.1 = q.1 ∧ p.2 ≤ q.2)

/-- ORDER BY comparison pulled back along a sort key. -/
def keyLe {α : Type} (k : α → Nat × String) (a b : α) : Prop :=
  pairLe (k a) (k b)

instance pairLe.decRel : DecidableRel pairLe := fun p q => by
  unfold pairLe; infer_instance

instance keyLe.decRel {α : Type} (k : α → Nat × String) :
    DecidableRel (keyLe k) := fun a b => by
  unfold keyLe; infer_instance

theorem pairLe_total (p q : Nat × String) : pairLe p q ∨ pairLe q p := by
  rcases Nat.lt_trichotomy p.1 q.1 with h | h | h
  · exact Or.inl (Or.inl h)
  · rcases le_total p.2 q.2 with h2 | h2
    · exact Or.inl (Or.inr ⟨h, h2⟩)
    · exact Or.inr (Or.inr ⟨h.symm, h2⟩)
  · exact Or.inr (Or.inl h)

theorem pairLe_trans {p q s : Nat × String} :
    pairLe p q → pairLe q s → pairLe p s := by
  rintro (h1 | ⟨h1, h1'⟩) (h2 | ⟨h2, h2'⟩)
  · exact Or.inl (h1.trans h2)
  · exact Or.inl (h2 ▸ h1)
  · exact Or.inl (h1 ▸ h2)
  · exact Or.inr ⟨h1.trans h2, h1'.trans h2'⟩

instance keyLe.isTotal {α : Type} (k : α → Nat × String) :
    IsTotal α (keyLe k) := ⟨fun a b => pairLe_total (k a) (k b)⟩

instance keyLe.isTrans {α : Type} (k : α → Nat × String) :
    IsTrans α (keyLe k) := ⟨fun _ _ _ h1 h2 => pairLe_trans h1 h2⟩

/-- The direct section lookup of `query()` (Step 6b): filter
`chunks_identity` on the padded section key, sort parent-role rows first and
then by `chunk_id`, and apply `LIMIT top_k`.  The snippet has no lifecycle
filter and no document-type filter. -/
def directSectionLookup (tbl : List IdentityRow) (sectionNum : String)
    (topK : Nat) : List IdentityRow :=
  (((tbl.filter (fun r => r.«section» == some sectionNum)).insertionSort
      (keyLe sectionSortKey)).take topK)

/-- The `chunk_lifecycle` table as an association list. -/
def lookupLifecycle : List (String × LifecycleStatus) → String →
    Option LifecycleStatus
  | [], _ => none
  | (k, v) :: rest, cid =>
      if k == cid then some v else lookupLifecycle rest cid

/-- A RETIRED chunk row in section 017: the section-lookup SQL still
returns it, because the query never joins `chunk_lifecycle`. -/
def retiredRow017 : IdentityRow :=
  { chunk_id := ("017_act_001"), chunk_role := ChunkRole.parent,
    parent_chunk_id := none, document_type := DocumentType.act,
    authority_level := AuthorityLevel.statutory, binding := true,
    «section» := some ("017"), sub_section := none }

/-- Lifecycle table marking `017_act_001` RETIRED. -/
def retiredLifecycleTbl : List (String × LifecycleStatus) :=
  [(("017_act_001"), LifecycleStatus.RETIRED)]

/-- C4 counterexample: the section-lookup SQL has no lifecycle filter, so a
RETIRED chunk in section 017 is returned, contradicting the claim that only
ACTIVE chunks are returned. -/
theorem direct_section_lookup_counterexample :
    directSectionLookup [retiredRow017] ("017") 5 = [retiredRow017] ∧
    lookupLifecycle retiredLifecycleTbl retiredRow017.chunk_id
      = some LifecycleStatus.RETIRED := by
  constructor
  · rfl
  · rfl

/-- C4 (amended): for every `section(number)` query, Direct Lookup returns
only chunks whose `section` field equals the padded key (with no filter on
lifecycle status), ordered with parent-role chunks before child-role chunks
and then by `chunk_id`, and bounded by the configurable top-k. -/
theorem direct_section_lookup_amended (tbl : List IdentityRow)
    (key : String) (topK : Nat) :
    (∀ r ∈ directSectionLookup tbl key topK,
        r.«section» = some key ∧ r ∈ tbl) ∧
    (directSectionLookup tbl key topK).length ≤ topK ∧
    List.Sorted (keyLe sectionSortKey) (directSectionLookup tbl key topK) ∧
    List.Pairwise
      (fun a b => ¬(a.chunk_role = ChunkRole.child ∧
                    b.chunk_role = ChunkRole.parent))
      (directSectionLookup tbl key topK) := by
  have hsorted : List.Sorted (keyLe sectionSortKey)
      ((tbl.filter (fun r => r.«section» == some key)).insertionSort
        (keyLe sectionSortKey)) :=
    List.sorted_insertionSort (keyLe sectionSortKey) _
  have hsortedTake : List.Sorted (keyLe sectionSortKey)
      (directSectionLookup tbl key topK) :=
    List.Pairwise.sublist (List.take_sublist _ _) hsorted
  refine ⟨?_, ?_, hsortedTake, ?_⟩
  · intro r hr
    have hmem : r ∈ (tbl.filter
        (fun r => r.«section» == some key)).insertionSort
        (keyLe sectionSortKey) :=
      (List.take_sublist _ _).subset hr
    have hmem2 : r ∈ tbl.filter (fun r => r.«section» == some key) :=
      (List.mem_insertionSort _).mp hmem
    have := List.mem_filter.mp hmem2
    exact ⟨by simpa using this.2, this.1⟩
  · exact List.length_take_le _ _
  · refine hsortedTake.imp ?_
    intro a b hab
    rintro ⟨ha, hb⟩
    have hra : roleRank a = 1 := by unfold roleRank; rw [ha]; rfl
    have hrb : roleRank b = 0 := by unfold roleRank; rw [hb]; rfl
    unfold keyLe pairLe sectionSortKey at hab
    simp only [] at hab
    rw [hra, hrb] at hab
    rcases hab with h | ⟨h, _⟩ <;> omega

/-- Witness for `direct_section_lookup_amended`: on a concrete two-row
table, the membership conjunct is discharged at a concrete returned row. -/
theorem direct_section_lookup_amended_witness :
    retiredRow017.«section» = some ("017") ∧
    retiredRow017 ∈ [retiredRow017] := by
  have h := direct_section_lookup_amended [retiredRow017] ("017") 5
  have hres : directSectionLookup [retiredRow017] ("017") 5
      = [retiredRow017] := rfl
  exact h.1 retiredRow017 (by rw [hres]; exact List.mem_singleton.mpr rfl)

/-! ## Direct definition lookup (QUERY_TO_ANSWER_FLOW.md, Step 5b)

```sql
SELECT ci.chunk_id
FROM chunks_identity ci
JOIN chunks_content cc ON ci.chunk_id = cc.chunk_id
WHERE ci.section = '002' AND ci.document_type = 'act'
  AND LOWER(cc.text) LIKE %s
LIMIT 5
```
(the LIKE parameter is `'%' + term.lower() + '%'`; there is no ORDER BY, no
lifecycle filter and the limit is the constant 5).
-/

/-- One row of the `chunks_content` table (mutable content fields). -/
structure ContentRow where
  chunk_id : String
  title : String
  compliance_area : String
  text : String
  summary : String
  citation : String
deriving DecidableEq, Repr

/-- The inner JOIN of `chunks_identity` with `chunks_content` on
`chunk_id`, in table order. -/
def joinContent (idTbl : List IdentityRow) (cTbl : List ContentRow) :
    List (IdentityRow × ContentRow) :=
  idTbl.flatMap (fun ci =>
    (cTbl.filter (fun cc => cc.chunk_id == ci.chunk_id)).map
      (fun cc => (ci, cc)))

/-- The definition lookup of `query()` (Step 5b), returning the joined rows
the SQL matches, in table order, limited to 5. -/
def directDefinitionLookup (idTbl : List IdentityRow)
    (cTbl : List ContentRow) (term : String) :
    List (IdentityRow × ContentRow) :=
  (((joinContent idTbl cTbl).filter (fun rc =>
      rc.1.«section» == some ("002") &&
      rc.1.document_type == DocumentType.act &&
      containsSub (lowerStr rc.2.text) (lowerStr term))).take 5)

/-- A child row of section 002 that precedes its parent in table order. -/
def childRow002 : IdentityRow :=
  { chunk_id := ("002_act_002"), chunk_role := ChunkRole.child,
    parent_chunk_id := some ("002_act_001"),
    document_type := DocumentType.act,
    authority_level := AuthorityLevel.statutory, binding := true,
    «section» := some ("002"), sub_section := none }

/-- The parent row of section 002. -/
def parentRow002 : IdentityRow :=
  { chunk_id := ("002_act_001"), chunk_role := ChunkRole.parent,
    parent_chunk_id := none, document_type := DocumentType.act,
    authority_level := AuthorityLevel.statutory, binding := true,
    «section» := some ("002"), sub_section := none }

/-- Content for the child row: contains the term "memorandum". -/
def childContent002 : ContentRow :=
  { chunk_id := ("002_act_002"), title := ("Definitions"),
    compliance_area := ("definitions"),
    text := ("(56) Memorandum means the memorandum of association"),
    summary := (""), citation := ("Section 2(56)") }

/-- Content for the parent row: also contains the term "memorandum". -/
def parentContent002 : ContentRow :=
  { chunk_id := ("002_act_001"), title := ("Definitions"),
    compliance_area := ("definitions"),
    text := ("Section 2. Definitions. (56) memorandum means ..."),
    summary := (""), citation := ("Section 2") }

/-- C5 counterexample: the definition-lookup SQL has no ORDER BY, so rows
come back in table order; with the child row stored before its parent, the
result lists the child first, contradicting the claimed parent-before-child
ordering (the query also never filters on lifecycle status, and its limit
is the constant 5, not the configurable top-k). -/
theorem direct_definition_lookup_counterexample :
    directDefinitionLookup [childRow002, parentRow002]
        [childContent002, parentContent002] ("memorandum")
      = [(childRow002, childContent002), (parentRow002, parentContent002)] ∧
    ¬ List.Pairwise
        (fun a b : IdentityRow × ContentRow =>
          ¬(a.1.chunk_role = ChunkRole.child ∧
            b.1.chunk_role = ChunkRole.parent))
        (directDefinitionLookup [childRow002, parentRow002]
          [childContent002, parentContent002] ("memorandum")) := by
  constructor
  · rfl
  · intro hpw
    have h := List.rel_of_pairwise_cons
      (by
        have : directDefinitionLookup [childRow002, parentRow002]
            [childContent002, parentContent002] ("memorandum")
          = [(childRow002, childContent002),
             (parentRow002, parentContent002)] := rfl
        rw [this] at hpw
        exact hpw)
      (List.mem_singleton.mpr rfl)
    exact h ⟨rfl, rfl⟩

/-- C5 (amended): the definition lookup returns only joined rows whose
identity is in section `002` with `document_type = 'act'` and whose content
text contains the term as a case-insensitive substring; at most 5 rows are
returned, and they appear in table order (as a sublist of the join — the
query performs no reordering and no lifecycle filtering). -/
theorem direct_definition_lookup_amended (idTbl : List IdentityRow)
    (cTbl : List ContentRow) (term : String) :
    (∀ rc ∈ directDefinitionLookup idTbl cTbl term,
        rc.1.«section» = some ("002") ∧
        rc.1.document_type = DocumentType.act ∧
        containsSub (lowerStr rc.2.text) (lowerStr term) = true) ∧
    (directDefinitionLookup idTbl cTbl term).length ≤ 5 ∧
    List.Sublist (directDefinitionLookup idTbl cTbl term)
      (joinContent idTbl cTbl) := by
  refine ⟨?_, List.length_take_le _ _, ?_⟩
  · intro rc hrc
    have hmem : rc ∈ (joinContent idTbl cTbl).filter (fun rc =>
        rc.1.«section» == some ("002") &&
        rc.1.document_type == DocumentType.act &&
        containsSub (lowerStr rc.2.text) (lowerStr term)) :=
      (List.take_sublist _ _).subset hrc
    have h := (List.mem_filter.mp hmem).2
    simp only [Bool.and_eq_true, beq_iff_eq] at h
    exact ⟨h.1.1, h.1.2, h.2⟩
  · exact (List.take_sublist _ _).trans (List.filter_sublist _)

/-- Witness for `direct_definition_lookup_amended` on the concrete two-row
store, discharging the membership conjunct at a concrete returned row. -/
theorem direct_definition_lookup_amended_witness :
    (childRow002, childContent002).1.«section» = some ("002") ∧
    (childRow002, childContent002).1.document_type = DocumentType.act ∧
    containsSub (lowerStr childContent002.text)
      (lowerStr ("memorandum")) = true := by
  exact (direct_definition_lookup_amended [childRow002, parentRow002]
    [childContent002, parentContent002] ("memorandum")).1
    (childRow002, childContent002) (by decide)

/-! ## Semantic search score conversion (QUERY_TO_ANSWER_FLOW.md, Step 7a.3)
and the embedding-candidate query (SECTION_QUERY_OPTIMIZATION.md,
incremental embedding fix). -/

/-- `'similarity_score': 1 - (distances[0][i] / 2)` — conversion of a raw
FAISS distance to a similarity score.  No clamping is applied. -/
def simScore (d : ℚ) : ℚ := 1 - d / 2

/-- Step 7a.3: map FAISS `(index, distance)` hits to
`(chunk_id, similarity_score)` via the `metadata.json` mapping. -/
def vectorHits (metadata : List String) (hits : List (Nat × ℚ)) :
    List (String × ℚ) :=
  hits.filterMap (fun h =>
    (metadata.get? h.1).map (fun cid => (cid, simScore h.2)))

/-- One row of the `chunk_embeddings` table; `hasEmbeddedAt` models
`embedded_at IS NOT NULL`. -/
structure EmbeddingRow where
  chunk_id : String
  enabled : Bool
  model : String
  vector_id : String
  hasEmbeddedAt : Bool
deriving DecidableEq, Repr

/-- LEFT JOIN lookup into `chunk_embeddings` by chunk id. -/
def lookupEmbedding : List EmbeddingRow → String → Option EmbeddingRow
  | [], _ => none
  | e :: rest, cid =>
      if e.chunk_id == cid then some e else lookupEmbedding rest cid

/-- The incremental embedding-candidate query
(SECTION_QUERY_OPTIMIZATION.md):
`WHERE ci.chunk_role = 'child' AND cc.text IS NOT NULL AND
 LENGTH(cc.text) > 50 AND (ce.embedded_at IS NULL OR ce.enabled = FALSE)`
over the `chunks_identity ⋈ chunks_content` join with a LEFT JOIN on
`chunk_embeddings`.  Note there is no lifecycle filter. -/
def embeddingCandidates (idTbl : List IdentityRow) (cTbl : List ContentRow)
    (eTbl : List EmbeddingRow) : List (IdentityRow × ContentRow) :=
  (joinContent idTbl cTbl).filter (fun rc =>
    rc.1.chunk_role == ChunkRole.child &&
    decide (50 < rc.2.text.length) &&
    (match lookupEmbedding eTbl rc.1.chunk_id with
     | none => true
     | some e => !e.hasEmbeddedAt || !e.enabled))

/-- C6 counterexample: the conversion `1 - d/2` is not clamped, so a hit at
raw distance 3 (possible for non-normalized or far vectors, since FAISS L2
distances range over `[0, ∞)`) is reported with similarity score `-1/2`,
outside the claimed interval `[0, 1]`. -/
theorem similarity_score_counterexample :
    vectorHits [("002_act_002")] [(0, 3)] = [(("002_act_002"), -(1/2))] ∧
    ¬(0 ≤ simScore 3 ∧ simScore 3 ≤ 1) := by
  constructor
  · show [(("002_act_002"), simScore 3)] = [(("002_act_002"), -(1/2))]
    norm_num [simScore]
  · norm_num [simScore]

/-- C6 (amended): the similarity score `1 - d/2` is at most 1 for every
nonnegative raw distance and lies in `[0, 1]` exactly when the raw distance
lies in `[0, 2]`; the embedding-candidate query restricts the index to
child chunks (with text longer than 50 characters), but applies no
lifecycle filter. -/
theorem similarity_score_amended (d : ℚ) (hd : 0 ≤ d) :
    simScore d ≤ 1 ∧
    (0 ≤ simScore d ↔ d ≤ 2) ∧
    (∀ (idTbl : List IdentityRow) (cTbl : List ContentRow)
       (eTbl : List EmbeddingRow),
      ∀ rc ∈ embeddingCandidates idTbl cTbl eTbl,
        rc.1.chunk_role = ChunkRole.child ∧ 50 < rc.2.text.length) := by
  refine ⟨?_, ?_, ?_⟩
  · unfold simScore
    nlinarith
  · unfold simScore
    constructor
    · intro h
      nlinarith
    · intro h
      nlinarith
  · intro idTbl cTbl eTbl rc hrc
    have h := (List.mem_filter.mp hrc).2
    simp only [Bool.and_eq_true, beq_iff_eq, decide_eq_true_eq] at h
    exact ⟨h.1.1, h.1.2⟩

/-- Witness for `similarity_score_amended` at raw distance 1 and a concrete
one-child-chunk store. -/
theorem similarity_score_amended_witness :
    simScore 1 ≤ 1 ∧
    (0 ≤ simScore 1 ↔ (1 : ℚ) ≤ 2) ∧
    childRow002.chunk_role = ChunkRole.child ∧
    50 < childContent002.text.length := by
  have h := similarity_score_amended 1 (by norm_num)
  exact ⟨h.1, h.2.1,
    h.2.2 [childRow002] [childContent002] []
      (childRow002, childContent002) (by decide)⟩

/-! ## Context building in `generate_answer`
(QUERY_TO_ANSWER_FLOW.md, Step 8)

```python
for chunk in context_chunks:
    doc_type = chunk['document_type'].upper()
    citation = f"Section {section}"
    context_parts.append(f"[{doc_type}] {citation}: {title}\n{text}")
context = "\n\n---\n\n".join(context_parts)[:6000]
```
with the chunk order coming from `get_chunk_details`
(`WHERE ci.chunk_id = ANY(%s) ORDER BY crr.priority, ci.section`,
per optimize_indexes.sql).  The character budget is 6000: the flow doc's
`[:8000]` is the superseded BEFORE value — PERFORMANCE_OPTIMIZATION.md
records the deployed change `[:8000] → [:6000]` (`CONTEXT_SIZE = 6000`).
Modelled on code-point lists. -/

/-- `str.upper()` as a code-point list. -/
def upperStr (s : String) : List Char := s.toList.map Char.toUpper

/-- One `[DOC_TYPE] Section X: Title\nText` block of the context. -/
def contextBlock (c : ChunkDetail) : List Char :=
  ("[").toList ++ upperStr (docTypeStr c.document_type) ++
  ("] Section ").toList ++ c.«section».toList ++ (": ").toList ++
  c.title.toList ++ ("\n").toList ++ c.text.toList

/-- `"\n\n---\n\n".join(context_parts)`. -/
def joinParts (ps : List (List Char)) : List Char :=
  List.intercalate (("\n\n---\n\n").toList) ps

/-- The bounded context string: the join of all blocks, sliced to its first
6000 characters (`[:6000]`, the deployed budget per
PERFORMANCE_OPTIMIZATION.md). -/
def buildContext (chunks : List ChunkDetail) : List Char :=
  (joinParts (chunks.map contextBlock)).take 6000

/-- The ORDER BY key of `get_chunk_details`: `crr.priority, ci.section`. -/
def detailSortKey (c : ChunkDetail) : Nat × String :=
  (c.priority, c.«section»)

/-- `get_chunk_details`: fetch the records of the given chunk ids, ordered
by retrieval priority ascending and then by section. -/
def getChunkDetails (tbl : List ChunkDetail) (ids : List String) :
    List ChunkDetail :=
  (tbl.filter (fun c => ids.contains c.chunk_id)).insertionSort
    (keyLe detailSortKey)

/-- A chunk whose single block exceeds the 6000-character budget. -/
def bigDetail : ChunkDetail :=
  { chunk_id := ("001_act_001"), «section» := ("001"),
    document_type := DocumentType.act,
    text := String.mk (List.replicate 9000 'a'),
    title := ("Long section"), compliance_area := ("incorporation"),
    priority := 1, authority_level := AuthorityLevel.statutory,
    citation := ("Section 1") }

theorem contextBlock_bigDetail_length :
    6000 < (contextBlock bigDetail).length := by
  have h : bigDetail.text.toList.length = 9000 := by
    show (List.replicate 9000 'a').length = 9000
    rw [List.length_replicate]
  unfold contextBlock
  rw [List.length_append]
  omega

/-- C7 counterexample: the context is built with a plain character slice
`[:6000]`, so a top-ranked chunk whose block exceeds the budget is cut
mid-chunk: the built context is a nonempty strict prefix of the single
block, contradicting the claim that truncation only drops whole
lowest-priority chunks and never cuts the top-ranked chunk mid-chunk. -/
theorem context_truncation_counterexample :
    buildContext [bigDetail] = (contextBlock bigDetail).take 6000 ∧
    0 < (buildContext [bigDetail]).length ∧
    (buildContext [bigDetail]).length < (contextBlock bigDetail).length := by
  have hjoin : joinParts [contextBlock bigDetail] = contextBlock bigDetail := by
    simp [joinParts, List.intercalate]
  have hbc : buildContext [bigDetail] = (contextBlock bigDetail).take 6000 := by
    unfold buildContext
    rw [List.map_singleton, hjoin]
  have hlen := contextBlock_bigDetail_length
  refine ⟨hbc, ?_, ?_⟩
  · rw [hbc, List.length_take]
    omega
  · rw [hbc, List.length_take]
    omega

/-- C7 (amended): the Answer Synthesizer concatenates
`[DOCUMENT_TYPE] Section X: Title\nText` blocks in the retrieval order
(priority ascending, then section, as produced by `get_chunk_details`),
slices the join to the first 6000 characters — the deployed budget of
PERFORMANCE_OPTIMIZATION.md — (so the output is always a prefix of the
full join and fits the budget), and when the full join fits the budget
nothing is truncated; truncation is a plain character slice, cutting
whatever crosses the boundary mid-chunk. -/
theorem answer_context_amended (tbl : List ChunkDetail) (ids : List String) :
    List.Sorted (keyLe detailSortKey) (getChunkDetails tbl ids) ∧
    (buildContext (getChunkDetails tbl ids)).length ≤ 6000 ∧
    (∃ rest, joinParts ((getChunkDetails tbl ids).map contextBlock)
        = buildContext (getChunkDetails tbl ids) ++ rest) ∧
    ((joinParts ((getChunkDetails tbl ids).map contextBlock)).length ≤ 6000 →
      buildContext (getChunkDetails tbl ids)
        = joinParts ((getChunkDetails tbl ids).map contextBlock)) := by
  refine ⟨List.sorted_insertionSort _ _, ?_, ?_, ?_⟩
  · unfold buildContext
    exact List.length_take_le _ _
  · exact ⟨(joinParts ((getChunkDetails tbl ids).map contextBlock)).drop 6000,
      (List.take_append_drop _ _).symm⟩
  · intro hle
    unfold buildContext
    exact List.take_of_length_le hle

/-- Witness for `answer_context_amended` on a concrete one-chunk store whose
block fits the budget (no truncation happens). -/
theorem answer_context_amended_witness :
    buildContext (getChunkDetails [sampleDetail] [("001_act_001")])
      = joinParts ((getChunkDetails [sampleDetail]
          [("001_act_001")]).map contextBlock) := by
  exact (answer_context_amended [sampleDetail] [("001_act_001")]).2.2.2
    (by decide)

/-! ## Query classifier (QUERY_TO_ANSWER_FLOW.md, Steps 4 and 5a)

```python
is_definition_query = any(keyword in query.lower() for keyword in [
    'definition', 'define', 'meaning', 'means', 'what is', 'what does'])
section_match = re.search(r'section\s+(\d+)', query.lower())
term_patterns = [
    r'definition\s+of\s+(["\']?)(\w+(?:\s+\w+)*)\1',
    r'define\s+(["\']?)(\w+(?:\s+\w+)*)\1',
    r'what\s+is\s+(?:a\s+|an\s+)?(["\']?)(\w+(?:\s+\w+)*)\1']
section_num = section_match.group(1).zfill(3)
```
The regexes are embedded as explicit matchers over code-point lists:
`\w` is `isWordChar`, `\s` is `isSpaceChar`, `re.search` is leftmost match
(`searchPat`), the optional quote group with its backreference is the
ordered alternative `quoteTermPart`, and greedy `(?:\s+\w+)*` with
backtracking against the closing backreference is `extendWords`. -/

/-- Python regex `\w` (ASCII view, queries are lowercased first). -/
def isWordChar (c : Char) : Bool := c.isAlphanum || c == '_'

/-- Python regex `\s`. -/
def isSpaceChar (c : Char) : Bool :=
  c == ' ' || c == '\t' || c == '\n' || c == '\r' || c == '\x0b' ||
  c == '\x0c'

/-- Greedy one-or-more run of characters satisfying `p` (`\w+` / `\s+`):
returns the run and the remainder, or `none` if the first character does
not match. -/
def run1 (p : Char → Bool) (cs : List Char) :
    Option (List Char × List Char) :=
  let r := cs.takeWhile p
  if r.isEmpty then none else some (r, cs.drop r.length)

/-- Match a literal character sequence, returning the remainder. -/
def litMatch : List Char → List Char → Option (List Char)
  | [], cs => some cs
  | _ :: _, [] => none
  | l :: ls, c :: cs => if l == c then litMatch ls cs else none

/-- Greedy `(?:\s+\w+)*` followed by the closing backreference `\1`
(`closeQ`, empty when no opening quote matched): extend the captured term
word by word as far as possible, backtracking until the close matches.
`fuel` bounds the recursion and is initialised to the remainder's length
(each extension consumes at least two characters). -/
def extendWords (closeQ : List Char) :
    Nat → List Char → List Char → Option (List Char)
  | 0, term, rest =>
      if (litMatch closeQ rest).isSome then some term else none
  | Nat.succ fuel, term, rest =>
      match run1 isSpaceChar rest with
      | none => if (litMatch closeQ rest).isSome then some term else none
      | some (sp, r1) =>
        match run1 isWordChar r1 with
        | none => if (litMatch closeQ rest).isSome then some term else none
        | some (w, r2) =>
          match extendWords closeQ fuel (term ++ sp ++ w) r2 with
          | some t => some t
          | none =>
              if (litMatch closeQ rest).isSome then some term else none

/-- `q(\w+(?:\s+\w+)*)q` for an explicit opening quote character `q`. -/
def quotedTerm (q : Char) (cs : List Char) : Option (List Char) :=
  match cs with
  | [] => none
  | c :: rest =>
    if c == q then
      match run1 isWordChar rest with
      | none => none
      | some (w, r1) => extendWords [q] r1.length w r1
    else none

/-- `(\w+(?:\s+\w+)*)` with an empty quote group. -/
def bareTerm (cs : List Char) : Option (List Char) :=
  match run1 isWordChar cs with
  | none => none
  | some (w, r1) => extendWords [] r1.length w r1

/-- `(["\']?)(\w+(?:\s+\w+)*)\1`: try a double quote, then a single quote,
then the empty group — exactly the regex's backtracking order. -/
def quoteTermPart (cs : List Char) : Option (List Char) :=
  match quotedTerm '"' cs with
  | some t => some t
  | none =>
    match quotedTerm '\'' cs with
    | some t => some t
    | none => bareTerm cs

/-- `definition\s+of\s+(["\']?)(\w+(?:\s+\w+)*)\1` anchored at the current
position. -/
def matchDefinitionOfAt (cs : List Char) : Option (List Char) :=
  match litMatch (("definition").toList) cs with
  | none => none
  | some r1 =>
    match run1 isSpaceChar r1 with
    | none => none
    | some (_, r2) =>
      match litMatch (("of").toList) r2 with
      | none => none
      | some r3 =>
        match run1 isSpaceChar r3 with
        | none => none
        | some (_, r4) => quoteTermPart r4

/-- `define\s+(["\']?)(\w+(?:\s+\w+)*)\1` anchored at the current
position. -/
def matchDefineAt (cs : List Char) : Option (List Char) :=
  match litMatch (("define").toList) cs with
  | none => none
  | some r1 =>
    match run1 isSpaceChar r1 with
    | none => none
    | some (_, r2) => quoteTermPart r2

/-- `what\s+is\s+(?:a\s+|an\s+)?(["\']?)(\w+(?:\s+\w+)*)\1` anchored at the
current position; the optional article alternatives are tried in the
regex's order with backtracking into the term part. -/
def matchWhatIsAt (cs : List Char) : Option (List Char) :=
  match litMatch (("what").toList) cs with
  | none => none
  | some r1 =>
    match run1 isSpaceChar r1 with
    | none => none
    | some (_, r2) =>
      match litMatch (("is").toList) r2 with
      | none => none
      | some r3 =>
        match run1 isSpaceChar r3 with
        | none => none
        | some (_, r4) =>
          match (match litMatch (("a").toList) r4 with
                 | none => none
                 | some r5 =>
                   match run1 isSpaceChar r5 with
                   | none => none
                   | some (_, r6) => quoteTermPart r6) with
          | some t => some t
          | none =>
            match (match litMatch (("an").toList) r4 with
                   | none => none
                   | some r5 =>
                     match run1 isSpaceChar r5 with
                     | none => none
                     | some (_, r6) => quoteTermPart r6) with
            | some t => some t
            | none => quoteTermPart r4

/-- `re.search`: try the anchored matcher at each position, leftmost match
wins. -/
def searchPat (m : List Char → Option (List Char)) :
    List Char → Option (List Char)
  | [] => m []
  | cs@(_ :: rest) =>
    match m cs with
    | some t => some t
    | none => searchPat m rest

/-- `section\s+(\d+)` anchored at the current position, returning the
digit group. -/
def matchSectionAt (cs : List Char) : Option (List Char) :=
  match litMatch (("section").toList) cs with
  | none => none
  | some r1 =>
    match run1 isSpaceChar r1 with
    | none => none
    | some (_, r2) =>
      match run1 Char.isDigit r2 with
      | none => none
      | some (ds, _) => some ds

/-- `re.search(r'section\s+(\d+)', query.lower())`. -/
def sectionSearch (lq : List Char) : Option (List Char) :=
  searchPat matchSectionAt lq

/-- The definition-indicating keywords of Step 4b. -/
def definitionKeywords : List (List Char) :=
  [("definition").toList, ("define").toList, ("meaning").toList,
   ("means").toList, ("what is").toList, ("what does").toList]

/-- `any(keyword in query.lower() for keyword in [...])`. -/
def isDefinitionQuery (lq : List Char) : Bool :=
  definitionKeywords.any (fun kw => containsSub lq kw)

/-- The ordered `term_patterns` list of Step 5a (each entry already wrapped
in `re.search`). -/
def termPatterns : List (List Char → Option (List Char)) :=
  [searchPat matchDefinitionOfAt, searchPat matchDefineAt,
   searchPat matchWhatIsAt]

/-- Apply an ordered pattern list; the first successful pattern wins. -/
def firstMatch : List (List Char → Option (List Char)) → List Char →
    Option (List Char)
  | [], _ => none
  | p :: ps, cs =>
    match p cs with
    | some t => some t
    | none => firstMatch ps cs

/-- Term extraction over the ordered pattern list. -/
def extractTerm (lq : List Char) : Option (List Char) :=
  firstMatch termPatterns lq

/-- `str.zfill(3)`: left-pad with `'0'` to width 3 (longer inputs are
unchanged). -/
def zfill3 (ds : List Char) : List Char :=
  List.replicate (3 - ds.length) '0' ++ ds

/-- The classifier's output intent. -/
inductive Intent where
  | definition (term : String)
  | sectionIntent (key : String)
  | general
deriving DecidableEq, Repr

/-- The query classifier of Step 4: test the definition keywords first; on
a keyword hit, extract the term with the ordered pattern list (degrading to
`general` when every pattern fails); otherwise test the section-number
pattern and zero-pad the matched digits; otherwise `general`. -/
def classify (q : String) : Intent :=
  let lq := lowerStr q
  if isDefinitionQuery lq then
    match extractTerm lq with
    | some t => Intent.definition (String.mk t)
    | none => Intent.general
  else
    match sectionSearch lq with
    | some ds => Intent.sectionIntent (String.mk (zfill3 ds))
    | none => Intent.general

theorem firstMatch_cons (p : List Char → Option (List Char))
    (ps : List (List Char → Option (List Char))) (cs : List Char) :
    firstMatch (p :: ps) cs
      = match p cs with
        | some t => some t
        | none => firstMatch ps cs := rfl

/-- C3: the classifier gates on the definition keywords; a successful
extraction yields the `definition` intent even when a section pattern also
matches (definition precedence); failure of every pattern degrades the
intent to `general`; the patterns apply in order with the first success
winning; a matched section number is zero-padded to the canonical 3-digit
key (longer digit runs pass through). -/
theorem classifier_spec (q : String) :
    (∀ t, isDefinitionQuery (lowerStr q) = true →
      extractTerm (lowerStr q) = some t →
      classify q = Intent.definition (String.mk t)) ∧
    (∀ k, isDefinitionQuery (lowerStr q) = true →
      classify q ≠ Intent.sectionIntent k) ∧
    (isDefinitionQuery (lowerStr q) = true →
      extractTerm (lowerStr q) = none → classify q = Intent.general) ∧
    (∀ t, searchPat matchDefinitionOfAt (lowerStr q) = some t →
      extractTerm (lowerStr q) = some t) ∧
    (∀ t, searchPat matchDefinitionOfAt (lowerStr q) = none →
      searchPat matchDefineAt (lowerStr q) = some t →
      extractTerm (lowerStr q) = some t) ∧
    (searchPat matchDefinitionOfAt (lowerStr q) = none →
      searchPat matchDefineAt (lowerStr q) = none →
      extractTerm (lowerStr q) = searchPat matchWhatIsAt (lowerStr q)) ∧
    (∀ ds, isDefinitionQuery (lowerStr q) = false →
      sectionSearch (lowerStr q) = some ds →
      classify q = Intent.sectionIntent (String.mk (zfill3 ds)) ∧
      3 ≤ (zfill3 ds).length ∧
      (ds.length ≤ 3 → (zfill3 ds).length = 3)) ∧
    (isDefinitionQuery (lowerStr q) = false →
      sectionSearch (lowerStr q) = none → classify q = Intent.general) := by
  refine ⟨?_, ?_, ?_, ?_, ?_, ?_, ?_, ?_⟩
  · intro t hdef hext
    unfold classify
    rw [if_pos hdef, hext]
  · intro k hdef
    unfold classify
    rw [if_pos hdef]
    cases hext : extractTerm (lowerStr q) <;> simp
  · intro hdef hext
    unfold classify
    rw [if_pos hdef, hext]
  · intro t h1
    show firstMatch (searchPat matchDefinitionOfAt ::
      [searchPat matchDefineAt, searchPat matchWhatIsAt]) (lowerStr q)
      = some t
    rw [firstMatch_cons, h1]
  · intro t h1 h2
    show firstMatch (searchPat matchDefinitionOfAt ::
      [searchPat matchDefineAt, searchPat matchWhatIsAt]) (lowerStr q)
      = some t
    rw [firstMatch_cons, h1]
    show firstMatch (searchPat matchDefineAt ::
      [searchPat matchWhatIsAt]) (lowerStr q) = some t
    rw [firstMatch_cons, h2]
  · intro h1 h2
    show firstMatch (searchPat matchDefinitionOfAt ::
      [searchPat matchDefineAt, searchPat matchWhatIsAt]) (lowerStr q)
      = searchPat matchWhatIsAt (lowerStr q)
    rw [firstMatch_cons, h1]
    show firstMatch (searchPat matchDefineAt ::
      [searchPat matchWhatIsAt]) (lowerStr q)
      = searchPat matchWhatIsAt (lowerStr q)
    rw [firstMatch_cons, h2]
    show firstMatch (searchPat matchWhatIsAt :: []) (lowerStr q)
      = searchPat matchWhatIsAt (lowerStr q)
    rw [firstMatch_cons]
    cases h3 : searchPat matchWhatIsAt (lowerStr q) <;>
      simp [firstMatch]
  · intro ds hdef hsec
    refine ⟨?_, ?_, ?_⟩
    · unfold classify
      rw [if_neg (by rw [hdef]; exact Bool.false_ne_true), hsec]
    · unfold zfill3
      rw [List.length_append, List.length_replicate]
      omega
    · intro hlen
      unfold zfill3
      rw [List.length_append, List.length_replicate]
      omega
  · intro hdef hsec
    unfold classify
    rw [if_neg (by rw [hdef]; exact Bool.false_ne_true), hsec]

/-- Witness for `classifier_spec` at the query
`"what is the definition of section 2"`: both a definition pattern and the
section pattern match, the definition path wins, and the extracted term is
`"section 2"`. -/
theorem classifier_spec_witness :
    classify ("what is the definition of section 2")
      = Intent.definition ("section 2") := by
  have h := (classifier_spec ("what is the definition of section 2")).1
    (("section 2").toList) (by decide) (by decide)
  simpa using h

/-! ## Refusal policy engine and retrieval orchestrator

The concrete `retrieval_service_v2._check_refusal_policies` and the
`query()` orchestration body are not part of this snapshot (AGENTS.md
documents them at flowchart level; SECTION_QUERY_OPTIMIZATION.md documents
the single-generation change); the decision procedure below is modelled
from the spec. -/

/-- One row of the `chunk_refusal_policy` table. -/
structure RefusalPolicyRow where
  chunk_id : String
  can_answer_standalone : Bool
  must_reference_parent_law : Bool
  refuse_if_parent_missing : Bool
deriving DecidableEq, Repr

/-- One row of the `chunk_relationships` table. -/
structure RelEdge where
  from_chunk_id : String
  relationship : RelationshipType
  to_chunk_id : String
deriving DecidableEq, Repr

/-- Lookup into `chunk_refusal_policy` by chunk id. -/
def lookupPolicy : List RefusalPolicyRow → String → Option RefusalPolicyRow
  | [], _ => none
  | p :: rest, cid =>
      if p.chunk_id == cid then some p else lookupPolicy rest cid

/-- The `refuse_if_parent_missing` flag of a chunk (false when the chunk
has no policy row). -/
def refuseIfParentMissing (pol : List RefusalPolicyRow) (cid : String) :
    Bool :=
  ((lookupPolicy pol cid).map
    (fun p => p.refuse_if_parent_missing)).getD false

/-- Modelled from the spec: the refusal decision is evaluated per the
lowest-priority (largest priority number, least authoritative) chunk of the
evidence set (spec §4.4); ties keep the first such chunk. -/
def lowestPriorityChunk (ev : List ChunkDetail) : Option ChunkDetail :=
  ev.foldl (fun acc c =>
    match acc with
    | none => some c
    | some b => if b.priority < c.priority then some c else some b) none

/-- Modelled from the spec: the statutory-parent-law relation is resolved
via `implements` / `clarifies` relationship edges in either direction
(spec §4.4 rule 2). -/
def relatedByParentLaw (edges : List RelEdge) (c d : ChunkDetail) : Bool :=
  edges.any (fun e =>
    (e.relationship == RelationshipType.implements ||
     e.relationship == RelationshipType.clarifies) &&
    ((e.from_chunk_id == c.chunk_id && e.to_chunk_id == d.chunk_id) ||
     (e.from_chunk_id == d.chunk_id && e.to_chunk_id == c.chunk_id)))

/-- Modelled from the spec: a higher-authority (strictly smaller priority
number) chunk related to `c` is present in the evidence set. -/
def hasHigherAuthorityParent (edges : List RelEdge)
    (ev : List ChunkDetail) (c : ChunkDetail) : Bool :=
  ev.any (fun d =>
    decide (d.priority < c.priority) && relatedByParentLaw edges c d)

/-- Output of the refusal policy engine: `proceed(evidence_set)` or
`refuse(reason)`. -/
inductive PolicyDecision where
  | proceed (ev : List ChunkDetail)
  | refuse (reason : String)
deriving DecidableEq, Repr

/-- Modelled from the spec: `_check_refusal_policies` (spec §4.4) — a
priority-1 lowest chunk always proceeds standalone; otherwise a
higher-authority related chunk in the same set lets the query proceed; in
its absence a set whose lowest chunk carries `refuse_if_parent_missing`
is refused with reason `insufficient_authoritative_source`. -/
def checkRefusalPolicies (edges : List RelEdge)
    (pol : List RefusalPolicyRow) (ev : List ChunkDetail) :
    PolicyDecision :=
  match lowestPriorityChunk ev with
  | none => PolicyDecision.proceed ev
  | some c =>
    if c.priority == 1 then PolicyDecision.proceed ev
    else if hasHigherAuthorityParent edges ev c then
      PolicyDecision.proceed ev
    else if refuseIfParentMissing pol c.chunk_id then
      PolicyDecision.refuse ("insufficient_authoritative_source")
    else PolicyDecision.proceed ev

/-- The governance prompt of Step 9 (instruction text abridged to its
leading line; what matters for the pipeline claims is that the prompt is a
pure function of the query and the bounded context only). -/
def buildPrompt (q : String) (ctx : List Char) : String :=
  ("You are a LEGAL COMPLIANCE ASSISTANT for the Companies Act, 2013 ") ++
  ("(India).\n\nUSER QUESTION:\n") ++ q ++
  ("\n\nSOURCE DOCUMENTS:\n") ++ String.mk ctx ++
  ("\n\nWELL-FORMATTED MARKDOWN ANSWER:")

/-- `generate_answer`: build the bounded context from the evidence set,
build the prompt, call the external LLM (`none` models a timeout or
non-success response). -/
def generateAnswer (llm : String → Option String) (q : String)
    (evidence : List ChunkDetail) : Option String :=
  llm (buildPrompt q (buildContext evidence))

/-- Terminal outcome of one query. -/
inductive QueryOutcome where
  | answered (answer : String) (retrieved : List (ChunkDetail × String))
      (direct_lookup_count supplementary_count : Nat)
  | refused (reason : String) (evidence : List ChunkDetail)
  | errored (error : String) (retrieved : List (ChunkDetail × String))
deriving DecidableEq, Repr

/-- The `source_type` tags of the response payload. -/
def markSourceTypes (direct supp : List ChunkDetail) :
    List (ChunkDetail × String) :=
  direct.map (fun c => (c, ("direct_lookup"))) ++
  supp.map (fun c => (c, ("supplementary")))

/-- Modelled from the spec: the orchestrator for `section` / `definition`
intents (spec §4.5, SECTION_QUERY_OPTIMIZATION.md): the refusal policy runs
on the authoritative (direct-lookup) evidence set before any synthesis; on
proceed, the answer is generated once, from the direct set alone;
supplementary chunks are merged into the response payload only; an LLM
failure surfaces `answer_generation_failed`. -/
def orchestrateAuthoritative (llm : String → Option String)
    (edges : List RelEdge) (pol : List RefusalPolicyRow) (q : String)
    (direct supp : List ChunkDetail) : QueryOutcome :=
  match checkRefusalPolicies edges pol direct with
  | PolicyDecision.refuse r => QueryOutcome.refused r direct
  | PolicyDecision.proceed ev =>
    match generateAnswer llm q ev with
    | none => QueryOutcome.errored ("answer_generation_failed")
        (markSourceTypes direct supp)
    | some a => QueryOutcome.answered a (markSourceTypes direct supp)
        direct.length supp.length

/-- Modelled from the spec: `search_vectors` failure handling (spec §4.3,
§7) — when the embedding call fails or times out (`none`), the semantic
search engine returns the empty result set instead of propagating. -/
def searchVectorsSafe {V : Type} (embedResult : Option V)
    (knn : V → List (String × ℚ)) : List (String × ℚ) :=
  match embedResult with
  | none => []
  | some v => knn v

/-- The synthesized answer of an outcome, when one was produced. -/
def outcomeAnswer : QueryOutcome → Option String
  | QueryOutcome.answered a _ _ _ => some a
  | _ => none

theorem checkRefusalPolicies_proceed_eq (edges : List RelEdge)
    (pol : List RefusalPolicyRow) (ev ev' : List ChunkDetail)
    (h : checkRefusalPolicies edges pol ev = PolicyDecision.proceed ev') :
    ev' = ev := by
  unfold checkRefusalPolicies at h
  split at h
  · cases h
    rfl
  · split_ifs at h <;> cases h <;> rfl

theorem orchestrate_of_refuse (llm : String → Option String)
    (edges : List RelEdge) (pol : List RefusalPolicyRow) (q : String)
    (direct supp : List ChunkDetail) (r : String)
    (h : checkRefusalPolicies edges pol direct = PolicyDecision.refuse r) :
    orchestrateAuthoritative llm edges pol q direct supp
      = QueryOutcome.refused r direct := by
  unfold orchestrateAuthoritative
  rw [h]

theorem orchestrate_of_answered (llm : String → Option String)
    (edges : List RelEdge) (pol : List RefusalPolicyRow) (q : String)
    (direct supp : List ChunkDetail) (a : String)
    (hc : checkRefusalPolicies edges pol direct
      = PolicyDecision.proceed direct)
    (hg : generateAnswer llm q direct = some a) :
    orchestrateAuthoritative llm edges pol q direct supp
      = QueryOutcome.answered a (markSourceTypes direct supp)
          direct.length supp.length := by
  unfold orchestrateAuthoritative
  rw [hc]
  show (match generateAnswer llm q direct with
    | none => QueryOutcome.errored ("answer_generation_failed")
        (markSourceTypes direct supp)
    | some a => QueryOutcome.answered a (markSourceTypes direct supp)
        direct.length supp.length)
    = QueryOutcome.answered a (markSourceTypes direct supp)
        direct.length supp.length
  rw [hg]

theorem orchestrate_of_llm_failure (llm : String → Option String)
    (edges : List RelEdge) (pol : List RefusalPolicyRow) (q : String)
    (direct supp : List ChunkDetail)
    (hc : checkRefusalPolicies edges pol direct
      = PolicyDecision.proceed direct)
    (hg : generateAnswer llm q direct = none) :
    orchestrateAuthoritative llm edges pol q direct supp
      = QueryOutcome.errored ("answer_generation_failed")
          (markSourceTypes direct supp) := by
  unfold orchestrateAuthoritative
  rw [hc]
  show (match generateAnswer llm q direct with
    | none => QueryOutcome.errored ("answer_generation_failed")
        (markSourceTypes direct supp)
    | some a => QueryOutcome.answered a (markSourceTypes direct supp)
        direct.length supp.length)
    = QueryOutcome.errored ("answer_generation_failed")
        (markSourceTypes direct supp)
  rw [hg]

/-- A priority-4 commentary chunk with no statutory parent. -/
def commentaryDetail : ChunkDetail :=
  { chunk_id := ("faq_001"), «section» := ("000"),
    document_type := DocumentType.qa,
    text := ("Commentary answer"), title := ("FAQ"),
    compliance_area := ("general"), priority := 4,
    authority_level := AuthorityLevel.commentary, citation := ("FAQ 1") }

/-- A refusal-policy table marking the commentary chunk
`refuse_if_parent_missing`. -/
def commentaryPolicy : List RefusalPolicyRow :=
  [{ chunk_id := ("faq_001"), can_answer_standalone := false,
     must_reference_parent_law := true, refuse_if_parent_missing := true }]

/-- C1: the refusal policy engine always outputs `proceed(evidence_set)` or
`refuse(reason)`; a synthesized answer is produced only after the policy
check proceeded on the authoritative evidence set (synthesis is gated
behind the check); and whenever the lowest-priority chunk of the evidence
set has priority ≥ 2 with `refuse_if_parent_missing = true` and no related
chunk of strictly higher priority exists in the set, the outcome is a
refusal with reason `insufficient_authoritative_source`, not an answer. -/
theorem refusal_policy_enforced :
    (∀ (edges : List RelEdge) (pol : List RefusalPolicyRow)
       (ev : List ChunkDetail),
      (∃ r, checkRefusalPolicies edges pol ev = PolicyDecision.refuse r) ∨
      checkRefusalPolicies edges pol ev = PolicyDecision.proceed ev) ∧
    (∀ (llm : String → Option String) (edges : List RelEdge)
       (pol : List RefusalPolicyRow) (q : String)
       (direct supp : List ChunkDetail) (a : String)
       (r : List (ChunkDetail × String)) (dlc sc : Nat),
      orchestrateAuthoritative llm edges pol q direct supp
        = QueryOutcome.answered a r dlc sc →
      checkRefusalPolicies edges pol direct
        = PolicyDecision.proceed direct ∧
      generateAnswer llm q direct = some a) ∧
    (∀ (llm : String → Option String) (edges : List RelEdge)
       (pol : List RefusalPolicyRow) (q : String)
       (direct supp : List ChunkDetail) (c : ChunkDetail),
      lowestPriorityChunk direct = some c →
      2 ≤ c.priority →
      refuseIfParentMissing pol c.chunk_id = true →
      (∀ d ∈ direct, relatedByParentLaw edges c d = true →
        ¬ d.priority < c.priority) →
      checkRefusalPolicies edges pol direct
        = PolicyDecision.refuse ("insufficient_authoritative_source") ∧
      orchestrateAuthoritative llm edges pol q direct supp
        = QueryOutcome.refused ("insufficient_authoritative_source")
            direct) := by
  refine ⟨?_, ?_, ?_⟩
  · intro edges pol ev
    cases hd : checkRefusalPolicies edges pol ev
    case refuse r => exact Or.inl ⟨r, rfl⟩
    case proceed ev' =>
      have hev :=
        checkRefusalPolicies_proceed_eq edges pol ev ev' hd
      exact Or.inr (by rw [hev])
  · intro llm edges pol q direct supp a r dlc sc h
    cases hcheck : checkRefusalPolicies edges pol direct
    case refuse r' =>
      rw [orchestrate_of_refuse llm edges pol q direct supp r' hcheck]
        at h
      cases h
    case proceed ev =>
      have hev : ev = direct :=
        checkRefusalPolicies_proceed_eq edges pol direct ev hcheck
      subst hev
      cases hgen : generateAnswer llm q ev
      · rw [orchestrate_of_llm_failure llm edges pol q ev supp
          hcheck hgen] at h
        cases h
      · rw [orchestrate_of_answered llm edges pol q ev supp _
          hcheck hgen] at h
        cases h
        exact ⟨rfl, rfl⟩
  · intro llm edges pol q direct supp c hc h2 hr hn
    have hno : hasHigherAuthorityParent edges direct c = false := by
      unfold hasHigherAuthorityParent
      rw [List.any_eq_false]
      intro d hd
      intro hcontra
      rw [Bool.and_eq_true] at hcontra
      exact hn d hd hcontra.2 (of_decide_eq_true hcontra.1)
    have hp1 : (c.priority == 1) = false := by
      rw [beq_eq_false_iff_ne]
      omega
    have hcheck : checkRefusalPolicies edges pol direct
        = PolicyDecision.refuse ("insufficient_authoritative_source") := by
      unfold checkRefusalPolicies
      rw [hc]
      show (if (c.priority == 1) = true then PolicyDecision.proceed direct
        else if hasHigherAuthorityParent edges direct c = true then
          PolicyDecision.proceed direct
        else if refuseIfParentMissing pol c.chunk_id = true then
          PolicyDecision.refuse ("insufficient_authoritative_source")
        else PolicyDecision.proceed direct)
        = PolicyDecision.refuse ("insufficient_authoritative_source")
      rw [hp1, hno, hr]
      simp
    exact ⟨hcheck,
      orchestrate_of_refuse llm edges pol q direct supp _ hcheck⟩

/-- Witness for `refusal_policy_enforced`: an evidence set holding only a
priority-4 commentary chunk with `refuse_if_parent_missing = true` and no
relationship edges is refused, and the orchestrator emits the refusal
instead of an answer. -/
theorem refusal_policy_enforced_witness :
    checkRefusalPolicies [] commentaryPolicy [commentaryDetail]
      = PolicyDecision.refuse ("insufficient_authoritative_source") ∧
    orchestrateAuthoritative (fun _ => some ("ans")) [] commentaryPolicy
        ("How to register?") [commentaryDetail] []
      = QueryOutcome.refused ("insufficient_authoritative_source")
          [commentaryDetail] := by
  exact (refusal_policy_enforced).2.2 (fun _ => some ("ans")) []
    commentaryPolicy ("How to register?") [commentaryDetail] []
    commentaryDetail (by decide) (by decide) (by decide)
    (by intro d hd hrel; cases hrel)

/-- C2: for a section or definition query the synthesized answer is a
function of the query and the direct-lookup evidence set only —
orchestrating with different supplementary sets yields the same answer —
and on success the supplementary chunks are merged into the response
payload (tagged `supplementary`) while the answer's provenance is the
direct set (`generate_answer` was called on it alone). -/
theorem single_generation_provenance
    (llm : String → Option String) (edges : List RelEdge)
    (pol : List RefusalPolicyRow) (q : String)
    (direct supp1 supp2 : List ChunkDetail) :
    outcomeAnswer (orchestrateAuthoritative llm edges pol q direct supp1)
      = outcomeAnswer
          (orchestrateAuthoritative llm edges pol q direct supp2) ∧
    (∀ (a : String) (r : List (ChunkDetail × String)) (dlc sc : Nat),
      orchestrateAuthoritative llm edges pol q direct supp1
        = QueryOutcome.answered a r dlc sc →
      generateAnswer llm q direct = some a ∧
      r = markSourceTypes direct supp1 ∧ sc = supp1.length) := by
  constructor
  · cases hcheck : checkRefusalPolicies edges pol direct
    case refuse r =>
      rw [orchestrate_of_refuse llm edges pol q direct supp1 r hcheck,
          orchestrate_of_refuse llm edges pol q direct supp2 r hcheck]
    case proceed ev =>
      have hev : ev = direct :=
        checkRefusalPolicies_proceed_eq edges pol direct ev hcheck
      subst hev
      cases hgen : generateAnswer llm q ev
      · rw [orchestrate_of_llm_failure llm edges pol q ev supp1
            hcheck hgen,
          orchestrate_of_llm_failure llm edges pol q ev supp2
            hcheck hgen]
        rfl
      · rw [orchestrate_of_answered llm edges pol q ev supp1 _
            hcheck hgen,
          orchestrate_of_answered llm edges pol q ev supp2 _
            hcheck hgen]
        rfl
  · intro a r dlc sc h
    cases hcheck : checkRefusalPolicies edges pol direct
    case refuse r' =>
      rw [orchestrate_of_refuse llm edges pol q direct supp1 r' hcheck]
        at h
      cases h
    case proceed ev =>
      have hev : ev = direct :=
        checkRefusalPolicies_proceed_eq edges pol direct ev hcheck
      subst hev
      cases hgen : generateAnswer llm q ev
      · rw [orchestrate_of_llm_failure llm edges pol q ev supp1
          hcheck hgen] at h
        cases h
      · rw [orchestrate_of_answered llm edges pol q ev supp1 _
          hcheck hgen] at h
        cases h
        exact ⟨rfl, rfl, rfl⟩

/-- Witness for `single_generation_provenance`: a concrete priority-1
direct set with a commentary supplementary chunk — the answer comes from
the direct set alone while the supplementary chunk is merged into the
payload. -/
theorem single_generation_provenance_witness :
    generateAnswer (fun _ => some ("ans")) ("section 1") [sampleDetail]
      = some ("ans") ∧
    markSourceTypes [sampleDetail] [commentaryDetail]
      = markSourceTypes [sampleDetail] [commentaryDetail] ∧
    (1 : Nat) = [commentaryDetail].length := by
  exact (single_generation_provenance (fun _ => some ("ans")) [] []
    ("section 1") [sampleDetail] [commentaryDetail] []).2 ("ans")
    (markSourceTypes [sampleDetail] [commentaryDetail]) 1 1 (by decide)

/-- C8: when the embedding call fails or times out, semantic search returns
the empty result set; the empty hit list resolves to no supplementary
chunks; the direct-lookup answer is still produced (with
`supplementary_count = 0`), and the embedding failure never surfaces as an
error outcome. -/
theorem embedding_failure_degrades {V : Type}
    (knn : V → List (String × ℚ)) (llm : String → Option String)
    (edges : List RelEdge) (pol : List RefusalPolicyRow) (q : String)
    (detailTbl direct : List ChunkDetail) (a : String)
    (hgen : generateAnswer llm q direct = some a)
    (hcheck : checkRefusalPolicies edges pol direct
      = PolicyDecision.proceed direct) :
    searchVectorsSafe (none : Option V) knn = [] ∧
    getChunkDetails detailTbl
      ((searchVectorsSafe (none : Option V) knn).map (fun h => h.1))
      = [] ∧
    orchestrateAuthoritative llm edges pol q direct
        (getChunkDetails detailTbl
          ((searchVectorsSafe (none : Option V) knn).map (fun h => h.1)))
      = QueryOutcome.answered a (markSourceTypes direct [])
          direct.length 0 ∧
    (∀ (e : String) (r : List (ChunkDetail × String)),
      orchestrateAuthoritative llm edges pol q direct
          (getChunkDetails detailTbl
            ((searchVectorsSafe (none : Option V) knn).map (fun h => h.1)))
        ≠ QueryOutcome.errored e r) := by
  have hempty : searchVectorsSafe (none : Option V) knn = [] := rfl
  have hsupp : getChunkDetails detailTbl
      ((searchVectorsSafe (none : Option V) knn).map (fun h => h.1))
      = [] := by
    rw [hempty]
    show (detailTbl.filter
      (fun c => List.contains [] c.chunk_id)).insertionSort
        (keyLe detailSortKey) = []
    have hf : detailTbl.filter (fun c => List.contains [] c.chunk_id)
        = [] := by
      apply List.filter_eq_nil_iff.mpr
      intro c hc
      simp [List.contains]
    rw [hf]
    rfl
  have houtcome : orchestrateAuthoritative llm edges pol q direct
      (getChunkDetails detailTbl
        ((searchVectorsSafe (none : Option V) knn).map (fun h => h.1)))
      = QueryOutcome.answered a (markSourceTypes direct [])
          direct.length 0 := by
    rw [hsupp]
    exact orchestrate_of_answered llm edges pol q direct [] a hcheck hgen
  refine ⟨hempty, hsupp, houtcome, ?_⟩
  intro e r
  rw [houtcome]
  intro hcontra
  cases hcontra

/-- Witness for `embedding_failure_degrades` at a concrete store and a
failing embedding call: the section answer is still produced with zero
supplementary chunks. -/
theorem embedding_failure_degrades_witness :
    searchVectorsSafe (none : Option Unit) (fun _ => []) = [] ∧
    getChunkDetails [sampleDetail]
      ((searchVectorsSafe (none : Option Unit)
        (fun _ => [])).map (fun h => h.1)) = [] ∧
    orchestrateAuthoritative (fun _ => some ("ans")) [] [] ("section 1")
        [sampleDetail]
        (getChunkDetails [sampleDetail]
          ((searchVectorsSafe (none : Option Unit)
            (fun _ => [])).map (fun h => h.1)))
      = QueryOutcome.answered ("ans")
          (markSourceTypes [sampleDetail] []) [sampleDetail].length 0 := by
  have h := embedding_failure_degrades (fun _ : Unit => [])
    (fun _ => some ("ans")) [] [] ("section 1") [sampleDetail]
    [sampleDetail] ("ans") (by decide) (by decide)
  exact ⟨h.1, h.2.1, h.2.2.1⟩

end Pragya
